import Mathlib

/-!
Verification development for the opencrm_api Python client library.

The definitions below are a shallow embedding of the library's source:
`opencrm/utils/query.py` (QueryBuilder), `opencrm/auth.py` (the three
authentication strategies), `opencrm/client.py` (HTTPClient response
classification and OpenCRMClient construction) and
`opencrm/resources/base.py` (the generic BaseResource CRUD operations
and pagination iterator).

Dynamic Python/JSON values are modelled by `PyVal`; Python dicts are
insertion-ordered association lists; the HTTP layer is abstracted as a
function from endpoint and body to a decoded response value; raising an
exception is modelled with `Except`.
-/

/-- Python/JSON-style dynamic values as they appear in decoded API
responses and in outgoing request bodies. -/
inductive PyVal where
  | vNone : PyVal
  | vInt : Int → PyVal
  | vStr : String → PyVal
  | vList : List PyVal → PyVal
  | vDict : List (String × PyVal) → PyVal

/-- Lookup in a Python dict modelled as an insertion-ordered association
list (`d[key]` / `key in d`). -/
def dictLookup {α : Type} : List (String × α) → String → Option α
  | [], _ => none
  | (k, v) :: rest, key => if k = key then some v else dictLookup rest key

/-- `d[key] = v` on an insertion-ordered dict: replaces the value in place
when the key is present, appends a new entry otherwise. -/
def dictSet {α : Type} (d : List (String × α)) (key : String) (v : α) : List (String × α) :=
  if d.any (fun p => p.1 == key) then
    d.map (fun p => if p.1 = key then (key, v) else p)
  else
    d ++ [(key, v)]

/-- Python dict-literal spread `{**d, **fields}`: entries of `fields` are
inserted left to right on top of `d`. -/
def dictMerge {α : Type} (d fields : List (String × α)) : List (String × α) :=
  fields.foldl (fun acc kv => dictSet acc kv.1 kv.2) d

/-- Python `str.isdigit()` on ASCII strings: non-empty and all characters
are decimal digits (working on the underlying character list). -/
def isDigitStr (s : String) : Bool :=
  s.data != [] && s.data.all Char.isDigit

/-- Numeric value of a list of decimal digit characters. -/
def intOfDigitChars (l : List Char) : Nat :=
  l.foldl (fun acc c => acc * 10 + (c.toNat - 48)) 0

/-- Numeric value of a string of decimal digits, as Python `int()` computes
it on a digit string. -/
def digitsToNat (s : String) : Nat :=
  intOfDigitChars s.data

/-- Python `str.strip()`: surrounding whitespace removed. -/
def stripChars (l : List Char) : List Char :=
  ((l.dropWhile Char.isWhitespace).reverse.dropWhile Char.isWhitespace).reverse

/-- Python `int(s)` on a string: optional surrounding whitespace, optional
sign, then a non-empty run of decimal digits; anything else raises
`ValueError` (modelled as `none`). -/
def pyIntOfStr (s : String) : Option Int :=
  match stripChars s.data with
  | '-' :: rest =>
    if rest != [] && rest.all Char.isDigit then some (-(intOfDigitChars rest : Int)) else none
  | '+' :: rest =>
    if rest != [] && rest.all Char.isDigit then some ((intOfDigitChars rest : Int)) else none
  | t =>
    if t != [] && t.all Char.isDigit then some ((intOfDigitChars t : Int)) else none

/-- Python `int(x)` on a decoded response value: integers pass through,
strings are parsed, every other shape raises (modelled as `none`). -/
def pyIntOfVal : PyVal → Option Int
  | .vInt n => some n
  | .vStr s => pyIntOfStr s
  | _ => none

/-- `QueryBuilder` from `opencrm/utils/query.py`: its only state is the
list of formatted condition strings. -/
structure QueryBuilder where
  _conditions : List String
  deriving DecidableEq, Repr

/-- `QueryBuilder.__init__`: an empty builder. -/
def QueryBuilder.init : QueryBuilder := ⟨[]⟩

/-- `QueryBuilder.where`: appends the condition formatted as
`field|OPERATOR|value` and returns the builder (`where` is a Lean keyword,
hence the name `whereOp`). -/
def QueryBuilder.whereOp (q : QueryBuilder) (field operator value : String) : QueryBuilder :=
  ⟨q._conditions ++ [field ++ "|" ++ operator ++ "|" ++ value]⟩

/-- `QueryBuilder.equals`. -/
def QueryBuilder.equals (q : QueryBuilder) (field value : String) : QueryBuilder :=
  q.whereOp field "=" value

/-- `QueryBuilder.like`. -/
def QueryBuilder.like (q : QueryBuilder) (field value : String) : QueryBuilder :=
  q.whereOp field "LIKE" value

/-- `QueryBuilder.begins_with`. -/
def QueryBuilder.begins_with (q : QueryBuilder) (field value : String) : QueryBuilder :=
  q.whereOp field "BEGINS" value

/-- `QueryBuilder.ends_with`. -/
def QueryBuilder.ends_with (q : QueryBuilder) (field value : String) : QueryBuilder :=
  q.whereOp field "ENDS" value

/-- `QueryBuilder.contains`. -/
def QueryBuilder.contains (q : QueryBuilder) (field value : String) : QueryBuilder :=
  q.whereOp field "CONTAINS" value

/-- `QueryBuilder.build`: `None` when no conditions were added, otherwise
`self._conditions[0]` (both branches of the source's conditional return
the first element). -/
def QueryBuilder.build (q : QueryBuilder) : Option String :=
  match q._conditions with
  | [] => none
  | c :: _ => some c

/-- `QueryBuilder.clear`: empties the condition list. -/
def QueryBuilder.clear (_q : QueryBuilder) : QueryBuilder := ⟨[]⟩

/-- Applies a sequence of `where` calls (field, operator, value) to a
builder, as method chaining does. -/
def applyWheres (q : QueryBuilder) : List (String × String × String) → QueryBuilder
  | [] => q
  | c :: rest => applyWheres (q.whereOp c.1 c.2.1 c.2.2) rest

/-- `APIKeyAuth` from `opencrm/auth.py`. -/
structure APIKeyAuth where
  api_key : String
  pass_key : String

/-- `APIKeyAuth.apply_to_request`: `{**data, "apikey": ..., "passkey": ...}`. -/
def APIKeyAuth.apply_to_request (a : APIKeyAuth) (data : List (String × String)) :
    List (String × String) :=
  dictSet (dictSet data "apikey" a.api_key) "passkey" a.pass_key

/-- `APIKeyAuth.apply_to_headers`: returns the headers unchanged. -/
def APIKeyAuth.apply_to_headers (_a : APIKeyAuth) (headers : List (String × String)) :
    List (String × String) :=
  headers

/-- `HeaderAuth` from `opencrm/auth.py`. -/
structure HeaderAuth where
  api_key : String
  pass_key : String

/-- `HeaderAuth.apply_to_request`: returns the body unchanged. -/
def HeaderAuth.apply_to_request (_a : HeaderAuth) (data : List (String × String)) :
    List (String × String) :=
  data

/-- `HeaderAuth.apply_to_headers`: `{**headers, "KEY1": ..., "KEY2": ...}`. -/
def HeaderAuth.apply_to_headers (a : HeaderAuth) (headers : List (String × String)) :
    List (String × String) :=
  dictSet (dictSet headers "KEY1" a.api_key) "KEY2" a.pass_key

/-- `SessionAuth` from `opencrm/auth.py`. -/
structure SessionAuth where
  access_key : String

/-- `SessionAuth.apply_to_request`: `{**data, "accesskey": ...}`. -/
def SessionAuth.apply_to_request (a : SessionAuth) (data : List (String × String)) :
    List (String × String) :=
  dictSet data "accesskey" a.access_key

/-- `SessionAuth.apply_to_headers`: returns the headers unchanged. -/
def SessionAuth.apply_to_headers (_a : SessionAuth) (headers : List (String × String)) :
    List (String × String) :=
  headers

/-- The closed set of authentication strategies an `OpenCRMClient` can be
constructed with. -/
inductive AuthStrategy where
  | apiKeyAuth : APIKeyAuth → AuthStrategy
  | headerAuth : HeaderAuth → AuthStrategy
  | sessionAuth : SessionAuth → AuthStrategy

/-- `OpenCRMClient.__init__` from `opencrm/client.py`.  Returns either a
`ConfigurationError` message or the constructed auth strategy, paired with
the number of network calls made during construction (the session-mode
login is the only network call; `login_access_key` stands for the key that
login would return).  Python falsiness of a `str` is emptiness. -/
def OpenCRMClient.init (system_name api_key pass_key auth_method login_access_key : String) :
    Except String AuthStrategy × Nat :=
  if system_name = "" then (.error "system_name is required", 0)
  else if api_key = "" ∨ pass_key = "" then (.error "api_key and pass_key are required", 0)
  else if auth_method = "keys" then (.ok (.apiKeyAuth ⟨api_key, pass_key⟩), 0)
  else if auth_method = "headers" then (.ok (.headerAuth ⟨api_key, pass_key⟩), 0)
  else if auth_method = "session" then (.ok (.sessionAuth ⟨login_access_key⟩), 1)
  else (.error ("Invalid auth_method: " ++ auth_method), 0)

/-- An HTTP response as `HTTPClient._handle_response` sees it: status code,
raw body text, and the result of attempting to decode the body as JSON
(`none` when `response.json()` would raise). -/
structure HttpResponse where
  status_code : Nat
  text : String
  json : Option PyVal

/-- Outcome of `HTTPClient._handle_response`: one of the three raised
errors (each carrying the status code and raw body it was raised with), or
a returned value (`PyVal.vNone` for Python `None`). -/
inductive HandleResult where
  | errNotFound : Nat → String → HandleResult
  | errRateLimit : Nat → String → HandleResult
  | errAPI : Nat → String → HandleResult
  | value : PyVal → HandleResult

/-- `HTTPClient._handle_response` from `opencrm/client.py`. -/
def HTTPClient.handle_response (r : HttpResponse) : HandleResult :=
  if r.status_code = 404 then .errNotFound 404 r.text
  else if r.status_code = 429 then .errRateLimit 429 r.text
  else if 400 ≤ r.status_code then .errAPI r.status_code r.text
  else if r.text = "" then .value .vNone
  else
    match r.json with
    | some v => .value v
    | none => .value (.vStr r.text)

/-- The class-level endpoint bindings of a `BaseResource` subclass. -/
structure ResourceCfg where
  module_name : String
  list_endpoint : String
  count_endpoint : String
  get_endpoint : String
  edit_endpoint : String

/-- Python truthiness of the `query` argument: a `QueryBuilder` instance is
always truthy, a raw string is truthy iff non-empty. -/
def queryTruthy : QueryBuilder ⊕ String → Bool
  | .inl _ => true
  | .inr s => s != ""

/-- `query.build() if isinstance(query, QueryBuilder) else query`. -/
def queryToStr : QueryBuilder ⊕ String → Option String
  | .inl qb => qb.build
  | .inr s => some s

/-- The request-body prelude of `BaseResource.count`: starts from an empty
dict, adds `query_string` when the query argument is truthy and builds to a
truthy string, then adds `keywords` when truthy. -/
def buildFilterData (query : Option (QueryBuilder ⊕ String)) (keywords : Option String) :
    List (String × PyVal) :=
  let d : List (String × PyVal) := []
  let d :=
    match query with
    | some q =>
      if queryTruthy q then
        match queryToStr q with
        | some qs => if qs != "" then dictSet d "query_string" (.vStr qs) else d
        | none => d
      else d
    | none => d
  match keywords with
  | some kw => if kw != "" then dictSet d "keywords" (.vStr kw) else d
  | none => d

/-- `BaseResource.count` from `opencrm/resources/base.py`, with the HTTP
layer abstracted as `post endpoint data`: posts the filter data to the
count endpoint and coerces the result (integer passes through, digit
string is parsed, anything else defaults to 0). -/
def BaseResource.count (cfg : ResourceCfg) (post : String → List (String × PyVal) → PyVal)
    (query : Option (QueryBuilder ⊕ String)) (keywords : Option String) : Int :=
  match post cfg.count_endpoint (buildFilterData query keywords) with
  | .vInt n => n
  | .vStr s => if isDigitStr s then (digitsToNat s : Int) else 0
  | _ => 0

/-- The result-extraction tail of `BaseResource.create`: integer result,
digit-string result, `record_id`-keyed mapping (where `int(...)` may raise
`ValueError`, modelled as `Except.error ()`), else 0. -/
def createExtract (result : PyVal) : Except Unit Int :=
  match result with
  | .vInt n => .ok n
  | .vStr s => if isDigitStr s then .ok ((digitsToNat s : Int)) else .ok 0
  | .vDict d =>
    match dictLookup d "record_id" with
    | some v =>
      match pyIntOfVal v with
      | some n => .ok n
      | none => .error ()
    | none => .ok 0
  | _ => .ok 0

/-- `BaseResource.create` from `opencrm/resources/base.py`: posts
`{"crmid": 0, **fields}` to the edit endpoint and extracts the new id from
the result. -/
def BaseResource.create (cfg : ResourceCfg) (post : String → List (String × PyVal) → PyVal)
    (fields : List (String × PyVal)) : Except Unit Int :=
  createExtract (post cfg.edit_endpoint (dictMerge [("crmid", .vInt 0)] fields))

/-- `BaseResource.update` from `opencrm/resources/base.py`: posts
`{"crmid": crmid, **fields}` to the edit endpoint; integer or digit-string
result is returned as the id, any other shape echoes the input id back. -/
def BaseResource.update (cfg : ResourceCfg) (post : String → List (String × PyVal) → PyVal)
    (crmid : Int) (fields : List (String × PyVal)) : Int :=
  match post cfg.edit_endpoint (dictMerge [("crmid", .vInt crmid)] fields) with
  | .vInt n => n
  | .vStr s => if isDigitStr s then (digitsToNat s : Int) else crmid
  | _ => crmid

/-- The loop of `BaseResource.iterate`, instrumented with the list of
`(limit_start, limit_end)` windows of the underlying `list` calls.
`listFn start stop` stands for `self.list(query, keywords, limit_start=
start, limit_end=stop)`; `fuel` bounds the number of loop iterations (the
Python `while True` loop has no bound of its own).  Each iteration fetches
the window `[offset, offset + batch_size)`, stops yielding nothing more
when the batch is empty, yields the batch, stops when it is shorter than
`batch_size`, and otherwise advances `offset` by `batch_size`. -/
def iterateGo {A : Type} (listFn : Nat → Nat → List A) (batch_size : Nat) :
    Nat → Nat → List A × List (Nat × Nat)
  | _, 0 => ([], [])
  | offset, fuel + 1 =>
    let batch := listFn offset (offset + batch_size)
    if batch.isEmpty then ([], [(offset, offset + batch_size)])
    else if batch.length < batch_size then (batch, [(offset, offset + batch_size)])
    else
      let rest := iterateGo listFn batch_size (offset + batch_size) fuel
      (batch ++ rest.1, (offset, offset + batch_size) :: rest.2)

/-- `BaseResource.iterate` from `opencrm/resources/base.py`: the loop of
`iterateGo` started at offset 0, returning the yielded records in order
together with the windows of the `list` calls made. -/
def BaseResource.iterate {A : Type} (listFn : Nat → Nat → List A) (batch_size fuel : Nat) :
    List A × List (Nat × Nat) :=
  iterateGo listFn batch_size 0 fuel

/-- A backing dataset served through `list` window semantics: the records
of `backing` with indices in `[limit_start, limit_end)`. -/
def sliceList {A : Type} (backing : List A) (limit_start limit_end : Nat) : List A :=
  (backing.drop limit_start).take (limit_end - limit_start)

/-- The endpoint bindings of `LeadsResource` from
`opencrm/resources/leads.py`, used as a concrete sample configuration. -/
def leadsCfg : ResourceCfg :=
  ⟨"Leads", "get_lead_list", "get_lead_list_count", "get_lead", "edit_lead"⟩

theorem dictLookup_eq_none_of_not_any {α : Type} (d : List (String × α)) (key : String)
    (h : d.any (fun q => q.1 == key) = false) : dictLookup d key = none := by
  induction d with
  | nil => rfl
  | cons p rest ih =>
    simp only [List.any_cons, Bool.or_eq_false_iff, beq_eq_false_iff_ne, ne_eq] at h
    simp [dictLookup, h.1, ih h.2]

theorem dictLookup_append {α : Type} (l1 l2 : List (String × α)) (key : String) :
    dictLookup (l1 ++ l2) key =
      ((dictLookup l1 key).rec (dictLookup l2 key) fun v => some v : Option α) := by
  induction l1 with
  | nil => rfl
  | cons p rest ih =>
    by_cases hp : p.1 = key <;> simp [dictLookup, hp, ih]

theorem dictLookup_mapSet_self {α : Type} (d : List (String × α)) (key : String) (v : α)
    (h : d.any (fun q => q.1 == key) = true) :
    dictLookup (d.map (fun p => if p.1 = key then (key, v) else p)) key = some v := by
  induction d with
  | nil => cases h
  | cons p rest ih =>
    simp only [List.map_cons]
    by_cases hp : p.1 = key
    · rw [if_pos hp]
      simp [dictLookup]
    · rw [if_neg hp]
      have h' : rest.any (fun q => q.1 == key) = true := by
        simpa [List.any_cons, hp] using h
      simp [dictLookup, hp, ih h']

theorem dictLookup_mapSet_ne {α : Type} (d : List (String × α)) (key key' : String) (v : α)
    (h : key' ≠ key) :
    dictLookup (d.map (fun p => if p.1 = key then (key, v) else p)) key' =
      dictLookup d key' := by
  induction d with
  | nil => rfl
  | cons p rest ih =>
    simp only [List.map_cons]
    by_cases hp : p.1 = key
    · rw [if_pos hp]
      have h1 : ¬key = key' := fun hh => h hh.symm
      have h2 : ¬p.1 = key' := by rw [hp]; exact h1
      simp [dictLookup, h1, h2, ih]
    · rw [if_neg hp]
      by_cases hpk : p.1 = key' <;> simp [dictLookup, hpk, ih]

theorem dictLookup_dictSet_self {α : Type} (d : List (String × α)) (key : String) (v : α) :
    dictLookup (dictSet d key v) key = some v := by
  unfold dictSet
  by_cases hany : d.any (fun q => q.1 == key) = true
  · rw [if_pos hany]
    exact dictLookup_mapSet_self d key v hany
  · rw [if_neg hany]
    have hfalse : d.any (fun q => q.1 == key) = false := by
      cases hx : d.any (fun q => q.1 == key)
      · rfl
      · exact absurd hx hany
    rw [dictLookup_append]
    rw [dictLookup_eq_none_of_not_any d key hfalse]
    simp [dictLookup]

theorem dictLookup_dictSet_ne {α : Type} (d : List (String × α)) (key key' : String) (v : α)
    (h : key' ≠ key) : dictLookup (dictSet d key v) key' = dictLookup d key' := by
  unfold dictSet
  by_cases hany : d.any (fun q => q.1 == key) = true
  · rw [if_pos hany]
    exact dictLookup_mapSet_ne d key key' v h
  · rw [if_neg hany]
    rw [dictLookup_append]
    have h1 : ¬key = key' := fun hh => h hh.symm
    have h2 : dictLookup [(key, v)] key' = none := by simp [dictLookup, h1]
    rw [h2]
    cases hdk : dictLookup d key' <;> simp

/-- C9: the body-key strategy returns the body with `apikey` and `passkey`
added and the headers unchanged; the header-key strategy returns the
headers with `KEY1` and `KEY2` added and the body unchanged; the session
strategy returns the body with `accesskey` added and the headers
unchanged.  Inputs are immutable values of the embedding, so no strategy
mutates them; "added" is expressed by lookup: the injected key maps to the
credential and every other key maps to what it mapped to in the input. -/
theorem AuthStrategy.augment_spec (k p ak : String) (data headers : List (String × String)) :
    (dictLookup ((APIKeyAuth.mk k p).apply_to_request data) "apikey" = some k ∧
     dictLookup ((APIKeyAuth.mk k p).apply_to_request data) "passkey" = some p ∧
     (∀ key, key ≠ "apikey" → key ≠ "passkey" →
       dictLookup ((APIKeyAuth.mk k p).apply_to_request data) key = dictLookup data key) ∧
     (APIKeyAuth.mk k p).apply_to_headers headers = headers) ∧
    ((HeaderAuth.mk k p).apply_to_request data = data ∧
     dictLookup ((HeaderAuth.mk k p).apply_to_headers headers) "KEY1" = some k ∧
     dictLookup ((HeaderAuth.mk k p).apply_to_headers headers) "KEY2" = some p ∧
     (∀ key, key ≠ "KEY1" → key ≠ "KEY2" →
       dictLookup ((HeaderAuth.mk k p).apply_to_headers headers) key = dictLookup headers key)) ∧
    (dictLookup ((SessionAuth.mk ak).apply_to_request data) "accesskey" = some ak ∧
     (∀ key, key ≠ "accesskey" →
       dictLookup ((SessionAuth.mk ak).apply_to_request data) key = dictLookup data key) ∧
     (SessionAuth.mk ak).apply_to_headers headers = headers) := by
  refine ⟨⟨?_, ?_, ?_, rfl⟩, ⟨rfl, ?_, ?_, ?_⟩, ⟨?_, ?_, rfl⟩⟩
  · rw [APIKeyAuth.apply_to_request,
      dictLookup_dictSet_ne _ _ _ _ (by decide : "apikey" ≠ "passkey")]
    exact dictLookup_dictSet_self _ _ _
  · exact dictLookup_dictSet_self _ _ _
  · intro key h1 h2
    rw [APIKeyAuth.apply_to_request, dictLookup_dictSet_ne _ _ _ _ h2,
      dictLookup_dictSet_ne _ _ _ _ h1]
  · rw [HeaderAuth.apply_to_headers,
      dictLookup_dictSet_ne _ _ _ _ (by decide : "KEY1" ≠ "KEY2")]
    exact dictLookup_dictSet_self _ _ _
  · exact dictLookup_dictSet_self _ _ _
  · intro key h1 h2
    rw [HeaderAuth.apply_to_headers, dictLookup_dictSet_ne _ _ _ _ h2,
      dictLookup_dictSet_ne _ _ _ _ h1]
  · exact dictLookup_dictSet_self _ _ _
  · intro key h1
    rw [SessionAuth.apply_to_request, dictLookup_dictSet_ne _ _ _ _ h1]

/-- Witness for C9 at concrete inputs: a body `{"x": "1"}` and headers
`{"y": "2"}` with credentials `A`/`P` and session key `S`. -/
theorem AuthStrategy.augment_spec_witness :
    dictLookup ((APIKeyAuth.mk "A" "P").apply_to_request [("x", "1")]) "apikey" = some "A" ∧
    dictLookup ((APIKeyAuth.mk "A" "P").apply_to_request [("x", "1")]) "x" = some "1" ∧
    (APIKeyAuth.mk "A" "P").apply_to_headers [("y", "2")] = [("y", "2")] ∧
    dictLookup ((HeaderAuth.mk "A" "P").apply_to_headers [("y", "2")]) "KEY2" = some "P" ∧
    dictLookup ((HeaderAuth.mk "A" "P").apply_to_headers [("y", "2")]) "y" = some "2" ∧
    dictLookup ((SessionAuth.mk "S").apply_to_request [("x", "1")]) "accesskey" = some "S" ∧
    dictLookup ((SessionAuth.mk "S").apply_to_request [("x", "1")]) "x" = some "1" := by
  have h := AuthStrategy.augment_spec "A" "P" "S" [("x", "1")] [("y", "2")]
  exact ⟨h.1.1, (h.1.2.2.1 "x" (by decide) (by decide)).trans rfl, h.1.2.2.2,
    h.2.1.2.2.1, (h.2.1.2.2.2 "y" (by decide) (by decide)).trans rfl,
    h.2.2.1, (h.2.2.2.1 "x" (by decide)).trans rfl⟩

/-- C4: build() returns none when no conditions have been added, both on a
fresh builder and immediately after clear(); otherwise it returns exactly
the first condition added, regardless of how many further conditions were
chained on. -/
theorem QueryBuilder.build_first_condition :
    QueryBuilder.init.build = none ∧
    (∀ q : QueryBuilder, q.clear.build = none) ∧
    (∀ f op v : String, ∀ rest : List (String × String × String),
      (applyWheres (QueryBuilder.init.whereOp f op v) rest).build =
        some (f ++ "|" ++ op ++ "|" ++ v)) := by
  refine ⟨rfl, fun q => rfl, fun f op v rest => ?_⟩
  have h : ∀ (cs : List (String × String × String)) (q : QueryBuilder),
      (applyWheres q cs)._conditions =
        q._conditions ++ cs.map (fun c => c.1 ++ "|" ++ c.2.1 ++ "|" ++ c.2.2) := by
    intro cs
    induction cs with
    | nil => intro q; simp [applyWheres]
    | cons c rest ih =>
      intro q
      simp [applyWheres, QueryBuilder.whereOp, ih]
  have h3 : (applyWheres (QueryBuilder.init.whereOp f op v) rest)._conditions =
      (f ++ "|" ++ op ++ "|" ++ v) ::
        rest.map (fun c => c.1 ++ "|" ++ c.2.1 ++ "|" ++ c.2.2) :=
    h rest (QueryBuilder.init.whereOp f op v)
  simp [QueryBuilder.build, h3]

/-- C7: equals(f,v) adds exactly the condition f|=|v, and each of the five
condition methods appends f|OP|v with its operator from
{=, LIKE, BEGINS, ENDS, CONTAINS}; in this functional embedding the
returned value is the updated builder, which is what chaining consumes. -/
theorem QueryBuilder.condition_method_operators (q : QueryBuilder) (f v : String) :
    (q.equals f v)._conditions = q._conditions ++ [f ++ "|=|" ++ v] ∧
    (q.like f v)._conditions = q._conditions ++ [f ++ "|LIKE|" ++ v] ∧
    (q.begins_with f v)._conditions = q._conditions ++ [f ++ "|BEGINS|" ++ v] ∧
    (q.ends_with f v)._conditions = q._conditions ++ [f ++ "|ENDS|" ++ v] ∧
    (q.contains f v)._conditions = q._conditions ++ [f ++ "|CONTAINS|" ++ v] := by
  refine ⟨?_, ?_, ?_, ?_, ?_⟩ <;>
    simp only [QueryBuilder.equals, QueryBuilder.like, QueryBuilder.begins_with,
      QueryBuilder.ends_with, QueryBuilder.contains, QueryBuilder.whereOp,
      String.append_assoc] <;> rfl

/-- C2: for every HTTP response, status 404 raises the not-found error
with status_code 404, status 429 raises the rate-limit error, any other
status at least 400 raises the generic API error, each carrying the
status code and the raw response body; below 400, an empty body yields
Python None, a decodable JSON body yields the decoded value, and a
non-JSON body falls back to the raw text. -/
theorem HTTPClient.handle_response_classification (r : HttpResponse) :
    (r.status_code = 404 →
      HTTPClient.handle_response r = .errNotFound 404 r.text) ∧
    (r.status_code = 429 →
      HTTPClient.handle_response r = .errRateLimit 429 r.text) ∧
    (400 ≤ r.status_code → r.status_code ≠ 404 → r.status_code ≠ 429 →
      HTTPClient.handle_response r = .errAPI r.status_code r.text) ∧
    (r.status_code < 400 → r.text = "" →
      HTTPClient.handle_response r = .value .vNone) ∧
    (r.status_code < 400 → r.text ≠ "" → ∀ v, r.json = some v →
      HTTPClient.handle_response r = .value v) ∧
    (r.status_code < 400 → r.text ≠ "" → r.json = none →
      HTTPClient.handle_response r = .value (.vStr r.text)) := by
  unfold HTTPClient.handle_response
  refine ⟨fun h => by simp [h], fun h => by simp [h], fun h hn4 hn9 => by simp [h, hn4, hn9],
    fun h ht => ?_, fun h ht v hj => ?_, fun h ht hj => ?_⟩ <;>
  · have h1 : r.status_code ≠ 404 := by omega
    have h2 : r.status_code ≠ 429 := by omega
    have h3 : ¬(400 ≤ r.status_code) := by omega
    simp_all

/-- Witness for C2 at concrete responses covering all six classification
branches. -/
theorem HTTPClient.handle_response_classification_witness :
    HTTPClient.handle_response ⟨404, "nf", none⟩ = .errNotFound 404 "nf" ∧
    HTTPClient.handle_response ⟨429, "slow", none⟩ = .errRateLimit 429 "slow" ∧
    HTTPClient.handle_response ⟨500, "boom", none⟩ = .errAPI 500 "boom" ∧
    HTTPClient.handle_response ⟨200, "", none⟩ = .value .vNone ∧
    HTTPClient.handle_response ⟨200, "[1]", some (.vList [.vInt 1])⟩ =
      .value (.vList [.vInt 1]) ∧
    HTTPClient.handle_response ⟨200, "plain", none⟩ = .value (.vStr "plain") :=
  ⟨(HTTPClient.handle_response_classification _).1 rfl,
   (HTTPClient.handle_response_classification _).2.1 rfl,
   (HTTPClient.handle_response_classification _).2.2.1 (by decide) (by decide) (by decide),
   (HTTPClient.handle_response_classification _).2.2.2.1 (by decide) rfl,
   (HTTPClient.handle_response_classification _).2.2.2.2.1 (by decide) (by decide) _ rfl,
   (HTTPClient.handle_response_classification _).2.2.2.2.2 (by decide) (by decide) rfl⟩

/-- C8: construction with an empty system name, an empty api key or pass
key, or an unrecognized auth mode yields a configuration error, in every
case with zero network calls made (the error is raised before any network
call is attempted). -/
theorem OpenCRMClient.init_validation (sn ak pk am lk : String) :
    (sn = "" →
      OpenCRMClient.init sn ak pk am lk = (.error "system_name is required", 0)) ∧
    ((ak = "" ∨ pk = "") →
      ∃ msg, OpenCRMClient.init sn ak pk am lk = (.error msg, 0)) ∧
    (am ≠ "keys" → am ≠ "headers" → am ≠ "session" →
      ∃ msg, OpenCRMClient.init sn ak pk am lk = (.error msg, 0)) := by
  unfold OpenCRMClient.init
  refine ⟨fun h => by rw [if_pos h], fun h => ?_, fun h1 h2 h3 => ?_⟩
  · by_cases hsn : sn = ""
    · exact ⟨"system_name is required", by rw [if_pos hsn]⟩
    · exact ⟨"api_key and pass_key are required", by rw [if_neg hsn, if_pos h]⟩
  · by_cases hsn : sn = ""
    · exact ⟨"system_name is required", by rw [if_pos hsn]⟩
    · by_cases hk : ak = "" ∨ pk = ""
      · exact ⟨"api_key and pass_key are required", by rw [if_neg hsn, if_pos hk]⟩
      · exact ⟨"Invalid auth_method: " ++ am,
          by rw [if_neg hsn, if_neg hk, if_neg h1, if_neg h2, if_neg h3]⟩

/-- Witness for C8: empty system name, empty api key, and an unrecognized
auth mode each yield a configuration error with zero network calls. -/
theorem OpenCRMClient.init_validation_witness :
    OpenCRMClient.init "" "" "p" "bogus" "k" = (.error "system_name is required", 0) ∧
    (∃ msg, OpenCRMClient.init "acme" "" "p" "keys" "k" = (.error msg, 0)) ∧
    (∃ msg, OpenCRMClient.init "acme" "b" "c" "bogus" "k" = (.error msg, 0)) :=
  ⟨(OpenCRMClient.init_validation "" "" "p" "bogus" "k").1 rfl,
   (OpenCRMClient.init_validation "acme" "" "p" "keys" "k").2.1 (Or.inl rfl),
   (OpenCRMClient.init_validation "acme" "b" "c" "bogus" "k").2.2
     (by decide) (by decide) (by decide)⟩

/-- C5: count returns an integer result unchanged, parses a digit-string
result, and defaults to 0 for every other response shape. -/
theorem BaseResource.count_coercion (cfg : ResourceCfg)
    (post : String → List (String × PyVal) → PyVal)
    (query : Option (QueryBuilder ⊕ String)) (keywords : Option String) :
    (∀ n : Int, post cfg.count_endpoint (buildFilterData query keywords) = .vInt n →
      BaseResource.count cfg post query keywords = n) ∧
    (∀ s : String, post cfg.count_endpoint (buildFilterData query keywords) = .vStr s →
      isDigitStr s = true →
      BaseResource.count cfg post query keywords = (digitsToNat s : Int)) ∧
    ((∀ n : Int, post cfg.count_endpoint (buildFilterData query keywords) ≠ .vInt n) →
     (∀ s : String, post cfg.count_endpoint (buildFilterData query keywords) = .vStr s →
        isDigitStr s = false) →
      BaseResource.count cfg post query keywords = 0) := by
  refine ⟨fun n h => by simp [BaseResource.count, h],
    fun s h hd => by simp [BaseResource.count, h, hd], fun h1 h2 => ?_⟩
  unfold BaseResource.count
  cases hres : post cfg.count_endpoint (buildFilterData query keywords) with
  | vInt n => exact absurd hres (h1 n)
  | vStr s => simp [h2 s hres]
  | vNone => rfl
  | vList l => rfl
  | vDict d => rfl

/-- Witness for C5: integer result 7 passes through, digit-string "42"
coerces to 42, non-numeric string coerces to 0. -/
theorem BaseResource.count_coercion_witness :
    BaseResource.count leadsCfg (fun _ _ => .vInt 7) none none = 7 ∧
    BaseResource.count leadsCfg (fun _ _ => .vStr "42") none none = 42 ∧
    BaseResource.count leadsCfg (fun _ _ => .vStr "n/a") none none = 0 :=
  ⟨(BaseResource.count_coercion leadsCfg (fun _ _ => .vInt 7) none none).1 7 rfl,
   ((BaseResource.count_coercion leadsCfg (fun _ _ => .vStr "42") none none).2.1
      "42" rfl (by decide)).trans (by decide),
   (BaseResource.count_coercion leadsCfg (fun _ _ => .vStr "n/a") none none).2.2
     (fun n h => PyVal.noConfusion h)
     (fun s h => by injection h with h2; rw [← h2]; decide)⟩

/-- C3: create posts crmid 0 plus the caller fields to the module's edit
endpoint and extracts the new id: an integer result is returned as is, a
digit-string result is parsed, a mapping containing record_id yields the
integer value of record_id (when one exists), and any unrecognized shape
yields 0. -/
theorem BaseResource.create_extraction (cfg : ResourceCfg)
    (post : String → List (String × PyVal) → PyVal) (fields : List (String × PyVal)) :
    BaseResource.create cfg post fields =
      createExtract (post cfg.edit_endpoint (dictMerge [("crmid", .vInt 0)] fields)) ∧
    (∀ n : Int, createExtract (.vInt n) = .ok n) ∧
    (∀ s : String, isDigitStr s = true →
      createExtract (.vStr s) = .ok ((digitsToNat s : Int))) ∧
    (∀ d v, ∀ n : Int, dictLookup d "record_id" = some v → pyIntOfVal v = some n →
      createExtract (.vDict d) = .ok n) ∧
    (∀ r : PyVal, (∀ n : Int, r ≠ .vInt n) →
      (∀ s, r = .vStr s → isDigitStr s = false) →
      (∀ d, r = .vDict d → dictLookup d "record_id" = none) →
      createExtract r = .ok 0) := by
  refine ⟨rfl, fun n => rfl, fun s hd => by simp [createExtract, hd],
    fun d v n h1 h2 => by simp [createExtract, h1, h2], fun r h1 h2 h3 => ?_⟩
  cases r with
  | vNone => rfl
  | vInt n => exact absurd rfl (h1 n)
  | vStr s => simp [createExtract, h2 s rfl]
  | vList l => rfl
  | vDict d => simp [createExtract, h3 d rfl]

/-- Witness for C3: digit-string "123" yields 123, mapping with record_id
"7" yields 7, an unrecognized shape (a list) yields 0. -/
theorem BaseResource.create_extraction_witness :
    BaseResource.create leadsCfg (fun _ _ => .vStr "123") [] = .ok 123 ∧
    BaseResource.create leadsCfg (fun _ _ => .vDict [("record_id", .vStr "7")]) [] = .ok 7 ∧
    BaseResource.create leadsCfg (fun _ _ => .vList []) [] = .ok 0 := by
  have t1 := BaseResource.create_extraction leadsCfg (fun _ _ => .vStr "123") []
  have t2 := BaseResource.create_extraction leadsCfg
    (fun _ _ => .vDict [("record_id", .vStr "7")]) []
  have t3 := BaseResource.create_extraction leadsCfg (fun _ _ => .vList []) []
  refine ⟨t1.1.trans ((t1.2.2.1 "123" (by decide)).trans
      (congrArg Except.ok (by decide))),
    t2.1.trans (t2.2.2.2.1 [("record_id", .vStr "7")] (.vStr "7") 7 rfl (by decide)),
    t3.1.trans (t3.2.2.2.2 (.vList []) (fun n h => PyVal.noConfusion h)
      (fun s h => PyVal.noConfusion h) (fun d h => PyVal.noConfusion h))⟩

/-- C6: update posts the id plus fields to the edit endpoint and returns
an integer or parsed digit-string result; for every other response shape
it echoes the input crmid back unchanged. -/
theorem BaseResource.update_echo (cfg : ResourceCfg)
    (post : String → List (String × PyVal) → PyVal)
    (crmid : Int) (fields : List (String × PyVal)) :
    (∀ n : Int, post cfg.edit_endpoint (dictMerge [("crmid", .vInt crmid)] fields) = .vInt n →
      BaseResource.update cfg post crmid fields = n) ∧
    (∀ s : String, post cfg.edit_endpoint (dictMerge [("crmid", .vInt crmid)] fields) = .vStr s →
      isDigitStr s = true →
      BaseResource.update cfg post crmid fields = (digitsToNat s : Int)) ∧
    ((∀ n : Int, post cfg.edit_endpoint (dictMerge [("crmid", .vInt crmid)] fields) ≠ .vInt n) →
     (∀ s : String, post cfg.edit_endpoint (dictMerge [("crmid", .vInt crmid)] fields) = .vStr s →
        isDigitStr s = false) →
      BaseResource.update cfg post crmid fields = crmid) := by
  refine ⟨fun n h => by simp [BaseResource.update, h],
    fun s h hd => by simp [BaseResource.update, h, hd], fun h1 h2 => ?_⟩
  unfold BaseResource.update
  cases hres : post cfg.edit_endpoint (dictMerge [("crmid", .vInt crmid)] fields) with
  | vInt n => exact absurd hres (h1 n)
  | vStr s => simp [h2 s hres]
  | vNone => rfl
  | vList l => rfl
  | vDict d => rfl

/-- Witness for C6: integer result 3 is returned, digit-string "9" parses
to 9, and a mapping result echoes the input id 5 back. -/
theorem BaseResource.update_echo_witness :
    BaseResource.update leadsCfg (fun _ _ => .vInt 3) 5 [] = 3 ∧
    BaseResource.update leadsCfg (fun _ _ => .vStr "9") 5 [] = 9 ∧
    BaseResource.update leadsCfg (fun _ _ => .vDict []) 5 [] = 5 :=
  ⟨(BaseResource.update_echo leadsCfg (fun _ _ => .vInt 3) 5 []).1 3 rfl,
   ((BaseResource.update_echo leadsCfg (fun _ _ => .vStr "9") 5 []).2.1
      "9" rfl (by decide)).trans (by decide),
   (BaseResource.update_echo leadsCfg (fun _ _ => .vDict []) 5 []).2.2
     (fun n h => PyVal.noConfusion h) (fun s h => PyVal.noConfusion h)⟩

/-- C10: a response mapping whose record_id value is not convertible to an
integer (here "oops") makes create raise the unguarded int() conversion
error (a ValueError outside the library's error taxonomy) rather than
fall through to the documented 0 default. -/
theorem BaseResource.create_record_id_raises (cfg : ResourceCfg)
    (fields : List (String × PyVal)) :
    BaseResource.create cfg (fun _ _ => .vDict [("record_id", .vStr "oops")]) fields =
      .error () := rfl

theorem iterateGo_slice {A : Type} (l : List A) (b : Nat) (hb : 0 < b) :
    ∀ fuel offset, (l.length - offset) / b + 1 ≤ fuel →
      iterateGo (sliceList l) b offset fuel =
        (l.drop offset,
         (List.range ((l.length - offset) / b + 1)).map
           (fun k => (offset + k * b, offset + (k + 1) * b))) := by
  intro fuel
  induction fuel with
  | zero => intro offset h; exact absurd h (Nat.not_succ_le_zero _)
  | succ fuel ih =>
    intro offset h
    have hslice : sliceList l offset (offset + b) = (l.drop offset).take b := by
      simp [sliceList]
    by_cases hle : l.length ≤ offset
    · have hdrop : l.drop offset = [] := List.drop_eq_nil_of_le hle
      have hsub : l.length - offset = 0 := Nat.sub_eq_zero_of_le hle
      simp [iterateGo, hslice, hdrop, hsub, List.range_succ]
    · have hoff : offset < l.length := Nat.lt_of_not_le hle
      by_cases hnb : l.length - offset < b
      · obtain ⟨x, xs, hd⟩ : ∃ x xs, l.drop offset = x :: xs := by
          cases hdrop : l.drop offset with
          | nil =>
            exfalso
            have := congrArg List.length hdrop
            simp [List.length_drop] at this
            omega
          | cons x xs => exact ⟨x, xs, rfl⟩
        have htake2 : (l.drop offset).take b = x :: xs :=
          (List.take_of_length_le (by simp [List.length_drop]; omega)).trans hd
        have hlt : (x :: xs).length < b := by
          rw [← hd]
          simp [List.length_drop]
          omega
        have hdiv0 : (l.length - offset) / b = 0 := Nat.div_eq_of_lt hnb
        simp only [iterateGo, hslice, htake2, List.isEmpty_cons, Bool.false_eq_true,
          if_false, if_pos hlt]
        rw [hd, hdiv0]
        simp [List.range_succ]
      · have hble : b ≤ l.length - offset := Nat.le_of_not_lt hnb
        have hbatchlen : ((l.drop offset).take b).length = b := by
          simp [List.length_take, List.length_drop]
          omega
        obtain ⟨y, ys, ht⟩ : ∃ y ys, (l.drop offset).take b = y :: ys := by
          cases htk : (l.drop offset).take b with
          | nil =>
            exfalso
            rw [htk] at hbatchlen
            simp at hbatchlen
            omega
          | cons y ys => exact ⟨y, ys, rfl⟩
        have hnotlt : ¬((y :: ys).length < b) := by
          rw [← ht, hbatchlen]
          omega
        have hdiv : (l.length - offset) / b = (l.length - (offset + b)) / b + 1 := by
          have h1 : l.length - offset = (l.length - (offset + b)) + b := by omega
          rw [h1, Nat.add_div_right _ hb]
        have hfuel : (l.length - (offset + b)) / b + 1 ≤ fuel := by
          rw [hdiv] at h
          omega
        have hrec := ih (offset + b) hfuel
        have hsplit : (l.drop offset).take b ++ l.drop (offset + b) = l.drop offset := by
          rw [← List.drop_drop, List.take_append_drop]
        simp only [iterateGo, hslice, ht, List.isEmpty_cons, Bool.false_eq_true,
          if_false, if_neg hnotlt, hrec]
        rw [← ht, hsplit]
        simp only [Prod.mk.injEq, true_and]
        rw [hdiv]
        conv_rhs => rw [List.range_succ_eq_map, List.map_cons, List.map_map]
        congr 1
        · simp
        · apply List.map_congr_left
          intro k hk
          simp only [Function.comp_apply, Prod.mk.injEq, Nat.succ_eq_add_one]
          constructor <;> ring

/-- C1: for every backing dataset served through list window semantics and
every positive batch size, iterate (given enough fuel for the Python
unbounded loop) performs list calls with exactly the advancing windows
(k*b, (k+1)*b) for k = 0 .. len/b, yields every record of the dataset in
order, and stops after the first empty or short batch (the window count
len/b + 1 is exactly the index of the first such batch). -/
theorem BaseResource.iterate_slice_spec {A : Type} (l : List A) (b fuel : Nat) (hb : 0 < b)
    (hf : l.length / b + 1 ≤ fuel) :
    BaseResource.iterate (sliceList l) b fuel =
      (l, (List.range (l.length / b + 1)).map (fun k => (k * b, (k + 1) * b))) := by
  have h := iterateGo_slice l b hb fuel 0 (by simpa using hf)
  simpa [BaseResource.iterate] using h

set_option maxRecDepth 10000 in
/-- Witness for C1 at the claim's concrete scenario: a backing list of 250
records with batch size 100 makes exactly three list calls with windows
[0,100), [100,200), [200,300) and yields exactly the 250 records in
order, terminating on the short 50-record final batch. -/
theorem BaseResource.iterate_slice_spec_witness :
    BaseResource.iterate (sliceList (List.range 250)) 100 3 =
      (List.range 250, [(0, 100), (100, 200), (200, 300)]) := by
  have h := BaseResource.iterate_slice_spec (List.range 250) 100 3 (by decide)
    (by simp [List.length_range])
  rw [h]
  rfl
